import Mathlib

/-!
Verification of the Streaming Session Matchmaker described by the repository's
documentation against the code the repository actually contains.

The executable artefacts are the `SessionManager` snippet in
`src/pages/index.js` (methods `assignSession` and `findAvailableServer`,
backed by a Redis keyspace) and the session-lifecycle `setTimeout` cleanup
snippet in `docs/streaming/pixel-streaming-optimization.md`.  Both are
embedded shallowly below: the Redis keyspace becomes an explicit state record
of association lists, asynchronous calls become sequential state passing, and
a thrown JavaScript error becomes an `Except` value.
-/

namespace Matchmaker

/-- A JavaScript runtime error.  The only error the embedded code can raise is
a `TypeError`: in `assignSession`, when `findAvailableServer` returns `null`,
the fallback line `server = await this.createNewServer()` both calls a method
that is not defined anywhere on `SessionManager` (throwing
`TypeError: this.createNewServer is not a function`) and assigns to the
`const` binding `server` (itself a `TypeError`). -/
inductive JSError
  | typeError (msg : String)
deriving DecidableEq

/-- The session object built by `SessionManager.assignSession`:
`{ userId, serverId: server.id, subdomain, startTime: Date.now(),
maxDuration: 30 * 60 * 1000 }`.  Timestamps are milliseconds. -/
structure Session where
  userId : String
  serverId : String
  subdomain : String
  startTime : Nat
  maxDuration : Nat
deriving DecidableEq

/-- The slice of the Redis keyspace the snippet touches.
`servers` is the set `cirrus:servers` in its `SMEMBERS` iteration order;
`loads` maps a server id to the parsed integer stored at
`cirrus:{serverId}:load` (a server id absent from `loads` models a missing
load key, whose `parseInt` is `NaN`); `sessions` maps a user id to the record
stored at `session:{userId}` together with the TTL (in seconds) passed to
`SETEX`.  The three JavaScript key namespaces are disjoint string prefixes, so
they are represented as separate fields. -/
structure RedisState where
  servers : List String
  loads : List (String × Int)
  sessions : List (String × (Session × Nat))
deriving DecidableEq

/-- `GET key`: the value bound to `k`, scanning the store front to back. -/
def getKey {α : Type} : List (String × α) → String → Option α
  | [], _ => none
  | (k, v) :: rest, w => if w = k then some v else getKey rest w

/-- Remove every binding for `k`. -/
def delKey {α : Type} : List (String × α) → String → List (String × α)
  | [], _ => []
  | (k, v) :: rest, w => if k = w then delKey rest w else (k, v) :: delKey rest w

/-- How many bindings the store holds for `k`. -/
def countKey {α : Type} : List (String × α) → String → Nat
  | [], _ => 0
  | (k, _) :: rest, w => (if k = w then 1 else 0) + countKey rest w

/-- `SETEX key ttl value`: overwrite the binding for `k`, keeping all other
bindings. -/
def putKey {α : Type} (m : List (String × α)) (k : String) (v : α) :
    List (String × α) :=
  (k, v) :: delKey m k

/-- `SessionManager.findAvailableServer`: iterate over
`redis.smembers("cirrus:servers")` in order; for each server id read
`cirrus:{serverId}:load`; return the first `{ id, load }` with
`parseInt(load) < 4` ("Max 4 users per server").  A server whose load key is
missing is skipped, because `parseInt(null) < 4` is false (`NaN`).  Returns
`null` (here `none`) when the loop finds no such server. -/
def findAvailableServer : List String → List (String × Int) →
    Option (String × Int)
  | [], _ => none
  | serverId :: rest, loads =>
    match getKey loads serverId with
    | some load =>
        if load < 4 then some (serverId, load)
        else findAvailableServer rest loads
    | none => findAvailableServer rest loads

/-- `SessionManager.assignSession(userId)`: look for an available Cirrus
server; if none is found, the fallback `server = await this.createNewServer()`
throws a `TypeError` (the method does not exist, and `server` is a `const`
binding), leaving the Redis state untouched; otherwise build the session
object and store it with `redis.setex("session:" + userId, 1800, ...)`.
`now` stands for `Date.now()`.  The result pairs the returned value (or the
thrown error) with the resulting Redis state. -/
def assignSession (st : RedisState) (userId : String) (now : Nat) :
    Except JSError Session × RedisState :=
  match findAvailableServer st.servers st.loads with
  | none =>
      (Except.error (JSError.typeError "this.createNewServer is not a function"),
       st)
  | some (serverId, _) =>
      let session : Session :=
        { userId := userId
          serverId := serverId
          subdomain := "session-" ++ toString now ++ ".ps.domain.com"
          startTime := now
          maxDuration := 30 * 60 * 1000 }
      (Except.ok session,
       { st with sessions := putKey st.sessions userId (session, 1800) })

/-- The server id assigned by a call's result, if the call returned normally. -/
def placedServer (r : Except JSError Session × RedisState) : Option String :=
  match r.1 with
  | Except.ok s => some s.serverId
  | Except.error _ => none

/-- The error a call threw, if it did not return normally. -/
def thrownError (r : Except JSError Session × RedisState) : Option JSError :=
  match r.1 with
  | Except.ok _ => none
  | Except.error e => some e

/-- Whether a call returned normally. -/
def returnedOk (r : Except JSError Session × RedisState) : Bool :=
  match r.1 with
  | Except.ok _ => true
  | Except.error _ => false

/-- The stored record and TTL a call's resulting Redis state holds for a user. -/
def storedFor (r : Except JSError Session × RedisState) (userId : String) :
    Option (Session × Nat) :=
  getKey r.2.sessions userId

/-!
The session-lifecycle snippet in
`docs/streaming/pixel-streaming-optimization.md`:

  setTimeout(() => { closeSession(session); releaseResources(session); },
             session.maxDuration);

The timer is armed when the session object is built (at `startTime`) and its
callback runs `closeSession` first and `releaseResources` second.
-/

/-- One call inside the `setTimeout` cleanup callback. -/
inductive CleanupEvent
  | closeSession
  | releaseResources
deriving DecidableEq

/-- The cleanup callback's body, in source order: `closeSession(session)` and
then `releaseResources(session)`. -/
def cleanupEvents : List CleanupEvent :=
  [CleanupEvent.closeSession, CleanupEvent.releaseResources]

/-- Observable progress of the cleanup: whether the session record has been
closed/removed (`closeSession` has run) and whether the server's capacity
slot has been released (`releaseResources` has run). -/
structure CleanupObs where
  sessionClosed : Bool
  resourcesReleased : Bool
deriving DecidableEq

/-- Effect of one cleanup call on the observable progress. -/
def applyCleanup : CleanupObs → CleanupEvent → CleanupObs
  | s, CleanupEvent.closeSession => { s with sessionClosed := true }
  | s, CleanupEvent.releaseResources => { s with resourcesReleased := true }

/-- Every state the cleanup passes through, from the state before the callback
runs to the state after both calls. -/
def cleanupStates : List CleanupObs :=
  cleanupEvents.scanl applyCleanup
    { sessionClosed := false, resourcesReleased := false }

/-- Status of a session under the `setTimeout` cleanup: the snippet's state
space has exactly two statuses, open (`active`) before the timer fires and
closed (`terminated`) once `closeSession` has run.  No intermediate status
exists in the code. -/
inductive DocSessionStatus
  | active
  | terminated
deriving DecidableEq

/-- Status of a session at time `now`(ms): the `setTimeout` is armed at
`startTime` with delay `maxDuration`, so the session is open strictly before
`startTime + maxDuration` and closed from that instant on.  The trigger
depends only on elapsed time since creation; the snippet keeps no
last-activity timestamp and has no idle timeout. -/
def docStatusAt (startTime maxDuration now : Nat) : DocSessionStatus :=
  if now < startTime + maxDuration then DocSessionStatus.active
  else DocSessionStatus.terminated

/-- Modelled from the spec: the repository contains no implementation of
`releaseResources` or of the Capacity Registry's `release` — only the call
site in the `setTimeout` cleanup appears.  Per the spec, `release`
"atomically decrements load, floored at 0" and the release is "associated
with the session's terminal-transition flag, checked-and-set exactly once",
so a release for a slot whose flag is already set is a no-op.  `load` is the
owning server's load counter and `terminalFlag` the session's
terminal-transition flag. -/
structure SlotState where
  load : Int
  terminalFlag : Bool
deriving DecidableEq

/-- Modelled from the spec: release the capacity slot of one terminated
session.  If the session's terminal-transition flag is already set the call
is a no-op; otherwise the flag is set and the load is decremented, floored
at 0. -/
def releaseSlot (s : SlotState) : SlotState :=
  if s.terminalFlag then s
  else { load := max (s.load - 1) 0, terminalFlag := true }

/-!  Concrete states used by counterexamples and witnesses. -/

/-- One server `s1` with load 3 of 4: exactly one free capacity slot. -/
def lastSlotState : RedisState :=
  { servers := ["s1"], loads := [("s1", 3)], sessions := [] }

/-- A session record for user `u1` on server `s9`, as stored by an earlier
placement. -/
def priorSession : Session :=
  { userId := "u1"
    serverId := "s9"
    subdomain := "session-0.ps.domain.com"
    startTime := 0
    maxDuration := 30 * 60 * 1000 }

/-- One idle server `s1` and an existing, non-terminated session record for
user `u1`. -/
def busyUserState : RedisState :=
  { servers := ["s1"]
    loads := [("s1", 0)]
    sessions := [("u1", (priorSession, 1800))] }

/-- Scenario D's registry: server `A` at load 2 of 4 and server `B` at load
1 of 4, iterated in the order `A`, `B`. -/
def scenarioDState : RedisState :=
  { servers := ["A", "B"], loads := [("A", 2), ("B", 1)], sessions := [] }

/-- Every server full: one server `s1` at load 4 of 4. -/
def saturatedState : RedisState :=
  { servers := ["s1"], loads := [("s1", 4)], sessions := [] }

/-!  General lemmas about the key-value store operations. -/

theorem getKey_delKey_ne {α : Type} (m : List (String × α)) (k w : String)
    (h : w ≠ k) : getKey (delKey m k) w = getKey m w := by
  induction m with
  | nil => rfl
  | cons a t ih =>
    obtain ⟨ak, av⟩ := a
    by_cases hak : ak = k
    · rw [delKey, if_pos hak, ih, getKey, if_neg (hak ▸ h)]
    · rw [delKey, if_neg hak, getKey, getKey]
      by_cases hw : w = ak
      · rw [if_pos hw, if_pos hw]
      · rw [if_neg hw, if_neg hw, ih]

theorem getKey_putKey_self {α : Type} (m : List (String × α)) (k : String)
    (v : α) : getKey (putKey m k v) k = some v := by
  rw [putKey, getKey, if_pos rfl]

theorem getKey_putKey_ne {α : Type} (m : List (String × α)) (k w : String)
    (v : α) (h : w ≠ k) : getKey (putKey m k v) w = getKey m w := by
  rw [putKey, getKey, if_neg h, getKey_delKey_ne m k w h]

theorem countKey_delKey_self {α : Type} (m : List (String × α)) (k : String) :
    countKey (delKey m k) k = 0 := by
  induction m with
  | nil => rfl
  | cons a t ih =>
    obtain ⟨ak, av⟩ := a
    by_cases hak : ak = k
    · rw [delKey, if_pos hak, ih]
    · rw [delKey, if_neg hak, countKey, if_neg hak, ih]

theorem countKey_putKey_self {α : Type} (m : List (String × α)) (k : String)
    (v : α) : countKey (putKey m k v) k = 1 := by
  rw [putKey, countKey, if_pos rfl, countKey_delKey_self]

theorem countKey_delKey_le {α : Type} (m : List (String × α)) (k j : String) :
    countKey (delKey m k) j ≤ countKey m j := by
  induction m with
  | nil => exact Nat.le_refl 0
  | cons a t ih =>
    obtain ⟨ak, av⟩ := a
    by_cases hak : ak = k
    · rw [delKey, if_pos hak, countKey]
      exact Nat.le_trans ih (Nat.le_add_left _ _)
    · rw [delKey, if_neg hak, countKey, countKey]
      exact Nat.add_le_add_left ih _

theorem countKey_putKey_ne {α : Type} (m : List (String × α)) (k j : String)
    (v : α) (h : j ≠ k) :
    countKey (putKey m k v) j ≤ countKey m j := by
  rw [putKey, countKey, if_neg (fun hkj => h hkj.symm)]
  simpa using countKey_delKey_le m k j

/-!  Characterisation of `findAvailableServer`. -/

theorem findAvailableServer_none_iff (servers : List String)
    (loads : List (String × Int)) :
    findAvailableServer servers loads = none ↔
      ∀ sid ∈ servers, ∀ n, getKey loads sid = some n → 4 ≤ n := by
  induction servers with
  | nil => simp [findAvailableServer]
  | cons s rest ih =>
    cases hl : getKey loads s with
    | none =>
      simp only [findAvailableServer, hl, ih]
      constructor
      · intro h sid hsid n hn
        rcases List.mem_cons.mp hsid with heq | hmem
        · subst heq
          rw [hl] at hn
          cases hn
        · exact h sid hmem n hn
      · intro h sid hsid n hn
        exact h sid (List.mem_cons_of_mem s hsid) n hn
    | some load =>
      by_cases hlt : load < 4
      · simp only [findAvailableServer, hl, if_pos hlt]
        constructor
        · intro h
          cases h
        · intro h
          have := h s (List.mem_cons_self s rest) load hl
          omega
      · simp only [findAvailableServer, hl, if_neg hlt, ih]
        constructor
        · intro h sid hsid n hn
          rcases List.mem_cons.mp hsid with heq | hmem
          · subst heq
            rw [hl] at hn
            cases hn
            omega
          · exact h sid hmem n hn
        · intro h sid hsid n hn
          exact h sid (List.mem_cons_of_mem s hsid) n hn

theorem findAvailableServer_eq_some (servers : List String)
    (loads : List (String × Int)) (sid : String) (n : Int)
    (h : findAvailableServer servers loads = some (sid, n)) :
    getKey loads sid = some n ∧ n < 4 ∧
      ∃ l₁ l₂, servers = l₁ ++ sid :: l₂ ∧
        ∀ x ∈ l₁, ∀ m, getKey loads x = some m → 4 ≤ m := by
  induction servers with
  | nil => cases h
  | cons s rest ih =>
    cases hl : getKey loads s with
    | none =>
      simp only [findAvailableServer, hl] at h
      obtain ⟨h1, h2, l₁, l₂, h3, h4⟩ := ih h
      refine ⟨h1, h2, s :: l₁, l₂, by simp [h3], ?_⟩
      intro x hx m hm
      rcases List.mem_cons.mp hx with heq | hmem
      · subst heq
        rw [hl] at hm
        cases hm
      · exact h4 x hmem m hm
    | some load =>
      simp only [findAvailableServer, hl] at h
      by_cases hlt : load < 4
      · rw [if_pos hlt] at h
        cases h
        exact ⟨hl, hlt, [], rest, rfl, by simp⟩
      · rw [if_neg hlt] at h
        obtain ⟨h1, h2, l₁, l₂, h3, h4⟩ := ih h
        refine ⟨h1, h2, s :: l₁, l₂, by simp [h3], ?_⟩
        intro x hx m hm
        rcases List.mem_cons.mp hx with heq | hmem
        · subst heq
          rw [hl] at hm
          cases hm
          omega
        · exact h4 x hmem m hm

deriving instance DecidableEq for Except

/-!  Inversion and frame lemmas for `assignSession`. -/

theorem assignSession_ok_inv (st : RedisState) (u : String) (now : Nat)
    (s : Session) (st' : RedisState)
    (h : assignSession st u now = (Except.ok s, st')) :
    (∃ n, findAvailableServer st.servers st.loads = some (s.serverId, n)) ∧
      s = { userId := u, serverId := s.serverId,
            subdomain := "session-" ++ toString now ++ ".ps.domain.com",
            startTime := now, maxDuration := 30 * 60 * 1000 } ∧
      st' = { st with sessions := putKey st.sessions u (s, 1800) } := by
  cases hf : findAvailableServer st.servers st.loads with
  | none => simp [assignSession, hf] at h
  | some p =>
    obtain ⟨sid, n⟩ := p
    simp only [assignSession, hf, Prod.mk.injEq, Except.ok.injEq] at h
    obtain ⟨hs, hst⟩ := h
    subst hs
    exact ⟨⟨n, by simp [hf]⟩, rfl, hst.symm⟩

theorem assignSession_preserves (st : RedisState) (u : String) (now : Nat) :
    (assignSession st u now).2.servers = st.servers ∧
    (assignSession st u now).2.loads = st.loads := by
  cases hf : findAvailableServer st.servers st.loads with
  | none => simp [assignSession, hf]
  | some p =>
    obtain ⟨sid, n⟩ := p
    simp [assignSession, hf]

/-!  The claims. -/

/-- C1 counterexample: with one server `s1` at load 3 of 4 (exactly one free
slot), a placement for `u1` is assigned to `s1`, the load counter of `s1`
still reads 3 afterwards, and a second placement for `u2` is again assigned
to `s1` — both placements take the final free slot, so no atomic reservation
protects it. -/
theorem c1_counterexample :
    placedServer (assignSession lastSlotState "u1" 0) = some "s1" ∧
    (assignSession lastSlotState "u1" 0).2.loads = [("s1", 3)] ∧
    placedServer
        (assignSession (assignSession lastSlotState "u1" 0).2 "u2" 7) =
      some "s1" := by decide

/-- C1 (amended): `assignSession` performs no reservation at all — whenever a
placement assigns a server `sid`, that server's stored load was some `n < 4`,
and every load counter is left exactly as it was.  The bound
`0 ≤ load ≤ maxCapacity` is therefore preserved by placements only
trivially, and nothing stops two placements from both being assigned a
server's last free slot. -/
theorem c1_theorem :
    ∀ (st : RedisState) (u : String) (now : Nat) (sid : String),
    placedServer (assignSession st u now) = some sid →
    (∃ n, getKey st.loads sid = some n ∧ n < 4) ∧
      (assignSession st u now).2.loads = st.loads := by
  intro st u now sid h
  refine ⟨?_, (assignSession_preserves st u now).2⟩
  cases hf : findAvailableServer st.servers st.loads with
  | none => simp [placedServer, assignSession, hf] at h
  | some p =>
    obtain ⟨s0, n⟩ := p
    simp only [placedServer, assignSession, hf, Option.some.injEq] at h
    subst h
    obtain ⟨h1, h2, -⟩ := findAvailableServer_eq_some st.servers st.loads s0 n hf
    exact ⟨n, h1, h2⟩

/-- C1 witness: the amended statement instantiated at the one-free-slot
state. -/
theorem c1_witness :
    (∃ n, getKey lastSlotState.loads "s1" = some n ∧ n < 4) ∧
      (assignSession lastSlotState "u1" 0).2.loads = lastSlotState.loads :=
  c1_theorem lastSlotState "u1" 0 "s1" (by decide)

/-- C2 counterexample: user `u1` already holds a stored, non-terminated
session record, yet `assignSession` for `u1` succeeds and assigns `s1` —
no `AlreadyActiveSessionError` exists in the code. -/
theorem c2_counterexample :
    (getKey busyUserState.sessions "u1").isSome = true ∧
    placedServer (assignSession busyUserState "u1" 100) = some "s1" := by
  decide

/-- C2 (amended): `assignSession` never inspects the user's existing
sessions — it returns normally exactly when some listed server has load < 4,
and its outcome is unchanged if the session store is emptied first. -/
theorem c2_theorem : ∀ (st : RedisState) (u : String) (now : Nat),
    returnedOk (assignSession st u now) =
      (findAvailableServer st.servers st.loads).isSome ∧
    returnedOk (assignSession st u now) =
      returnedOk (assignSession { st with sessions := [] } u now) := by
  intro st u now
  cases hf : findAvailableServer st.servers st.loads with
  | none => simp [returnedOk, assignSession, hf]
  | some p =>
    obtain ⟨sid, n⟩ := p
    simp [returnedOk, assignSession, hf]

/-- C2 witness: the amended statement instantiated at a state where the user
already has a session. -/
theorem c2_witness :
    returnedOk (assignSession busyUserState "u1" 100) =
      (findAvailableServer busyUserState.servers busyUserState.loads).isSome :=
  (c2_theorem busyUserState "u1" 100).1

/-- C3 counterexample: with servers `A` at load 2 of 4 and `B` at load 1 of 4
(Scenario D), `findAvailableServer` returns `A` — the first server in
iteration order with load < 4 — not the least-loaded server `B`. -/
theorem c3_counterexample :
    findAvailableServer scenarioDState.servers scenarioDState.loads =
      some ("A", 2) ∧
    findAvailableServer scenarioDState.servers scenarioDState.loads ≠
      some ("B", 1) := by decide

/-- C3 (amended): `findAvailableServer` is first-fit, not least-loaded: it
returns `none` exactly when no listed server has a stored load below 4, and
when it returns `(sid, n)` then `sid` is the first server in iteration order
whose stored load `n` is below 4 — every earlier server's stored load, if
any, is at least 4.  No health status or load-to-capacity ratio exists in the
code. -/
theorem c3_theorem :
    ∀ (servers : List String) (loads : List (String × Int)),
    (findAvailableServer servers loads = none ↔
      ∀ sid ∈ servers, ∀ n, getKey loads sid = some n → 4 ≤ n) ∧
    (∀ sid n, findAvailableServer servers loads = some (sid, n) →
      getKey loads sid = some n ∧ n < 4 ∧
      ∃ l₁ l₂, servers = l₁ ++ sid :: l₂ ∧
        ∀ x ∈ l₁, ∀ m, getKey loads x = some m → 4 ≤ m) := by
  intro servers loads
  exact ⟨findAvailableServer_none_iff servers loads,
    fun sid n h => findAvailableServer_eq_some servers loads sid n h⟩

/-- C3 witness: the amended statement instantiated at Scenario D's registry,
where the first fit is `A` with load 2. -/
theorem c3_witness :
    getKey scenarioDState.loads "A" = some 2 ∧ (2 : Int) < 4 := by
  have h := (c3_theorem scenarioDState.servers scenarioDState.loads).2 "A" 2
    (by decide)
  exact ⟨h.1, h.2.1⟩

/-- C4 counterexample: the cleanup callback passes through the state in which
the session has already been closed/removed but the capacity slot has not yet
been released — the code removes first and releases second, so the claimed
release-before-remove order is violated. -/
theorem c4_counterexample :
    CleanupObs.mk true false ∈ cleanupStates ∧
    ¬ (∀ s ∈ cleanupStates,
        s.sessionClosed = true → s.resourcesReleased = true) := by decide

/-- C4 (amended): in every state the cleanup passes through, if the capacity
slot has been released then the session has already been closed — the
callback runs `closeSession` first and `releaseResources` second. -/
theorem c4_theorem : ∀ s ∈ cleanupStates,
    s.resourcesReleased = true → s.sessionClosed = true := by decide

/-- C4 witness: the amended statement instantiated at the cleanup's final
state. -/
theorem c4_witness :
    CleanupObs.mk true true ∈ cleanupStates ∧
    (CleanupObs.mk true true).sessionClosed = true :=
  ⟨by decide, c4_theorem (CleanupObs.mk true true) (by decide) rfl⟩

/-- C5: releasing a terminated session's slot is idempotent — a second
release is a no-op, so the load changes at most once (modelled from the
spec, since the repository contains no release implementation). -/
theorem c5_theorem : ∀ s : SlotState,
    releaseSlot (releaseSlot s) = releaseSlot s ∧
    (s.terminalFlag = true → releaseSlot s = s) := by
  intro s
  obtain ⟨l, f⟩ := s
  cases f <;> simp [releaseSlot]

/-- C5 witness: a slot whose terminal flag is set is untouched, and a double
release at load 4 equals a single release. -/
theorem c5_witness :
    releaseSlot (SlotState.mk 3 true) = SlotState.mk 3 true ∧
    releaseSlot (releaseSlot (SlotState.mk 4 false)) =
      releaseSlot (SlotState.mk 4 false) :=
  ⟨(c5_theorem (SlotState.mk 3 true)).2 rfl,
   (c5_theorem (SlotState.mk 4 false)).1⟩

/-- C6 counterexample: with every server full, `assignSession` throws a
`TypeError` (the `createNewServer` method does not exist on `SessionManager`,
and `server` is a `const` binding) and leaves the state unchanged — it
neither retries placement nor fails with a `CapacityExhaustedError`, which
does not exist in the code. -/
theorem c6_counterexample :
    thrownError (assignSession saturatedState "u1" 0) =
      some (JSError.typeError "this.createNewServer is not a function") ∧
    (assignSession saturatedState "u1" 0).2 = saturatedState := by decide

/-- C6 (amended): whenever no listed server has spare capacity, the
provisioning fallback of `assignSession` always fails with a `TypeError` and
leaves the Redis state untouched. -/
theorem c6_theorem : ∀ (st : RedisState) (u : String) (now : Nat),
    findAvailableServer st.servers st.loads = none →
    assignSession st u now =
      (Except.error
        (JSError.typeError "this.createNewServer is not a function"), st) := by
  intro st u now h
  simp [assignSession, h]

/-- C6 witness: the amended statement instantiated at the saturated
registry. -/
theorem c6_witness :
    assignSession saturatedState "u1" 0 =
      (Except.error
        (JSError.typeError "this.createNewServer is not a function"),
       saturatedState) :=
  c6_theorem saturatedState "u1" 0 (by decide)

/-- C7 counterexample: a session created at t0 = 0 with maxDuration 1800 s is
still open at t0 + 1799 s but at t0 + 1800 s it is already terminated — the
`setTimeout` cleanup closes it directly, with no intermediate `Expiring`
status and no idle-timeout trigger anywhere in the code. -/
theorem c7_counterexample :
    docStatusAt 0 (30 * 60 * 1000) (1799 * 1000) = DocSessionStatus.active ∧
    docStatusAt 0 (30 * 60 * 1000) (1800 * 1000) =
      DocSessionStatus.terminated := by decide

/-- C7 (amended): for a session created at `t0` with maxDuration 1800 s, the
status is `active` exactly while `now < t0 + 1800 s` and `terminated` exactly
from `t0 + 1800 s` on — the transition is direct and depends only on elapsed
time since creation. -/
theorem c7_theorem : ∀ t0 now : Nat,
    (docStatusAt t0 (30 * 60 * 1000) now = DocSessionStatus.active ↔
      now < t0 + 1800 * 1000) ∧
    (docStatusAt t0 (30 * 60 * 1000) now = DocSessionStatus.terminated ↔
      t0 + 1800 * 1000 ≤ now) := by
  intro t0 now
  by_cases h : now < t0 + 30 * 60 * 1000 <;> simp [docStatusAt, h]
  all_goals omega

/-- C7 witness: the amended statement instantiated at creation time 5 ms,
one second before the deadline and at the deadline. -/
theorem c7_witness :
    docStatusAt 5 (30 * 60 * 1000) (5 + 1799 * 1000) =
      DocSessionStatus.active ∧
    docStatusAt 5 (30 * 60 * 1000) (5 + 1800 * 1000) =
      DocSessionStatus.terminated :=
  ⟨(c7_theorem 5 (5 + 1799 * 1000)).1.mpr (by omega),
   (c7_theorem 5 (5 + 1800 * 1000)).2.mpr (by omega)⟩

/-- C8 counterexample: the record stored for `u1` carries maxDuration
1 800 000 ms and TTL 1800 s — the TTL equals the maximum duration exactly
and is not strictly greater than it, so no grace period is added. -/
theorem c8_counterexample :
    (storedFor (assignSession lastSlotState "u1" 0) "u1").map
        (fun p => (p.1.maxDuration, p.2)) = some (1800000, 1800) ∧
    ¬ (1800 * 1000 > 1800000) := by decide

/-- C8 (amended): every successfully placed session is stored with a TTL of
exactly 1800 seconds, which equals the session's maxDuration of
30 * 60 * 1000 ms — there is no grace period. -/
theorem c8_theorem :
    ∀ (st : RedisState) (u : String) (now : Nat) (s : Session)
      (st' : RedisState),
    assignSession st u now = (Except.ok s, st') →
    storedFor (assignSession st u now) u = some (s, 1800) ∧
      s.maxDuration = 1800 * 1000 := by
  intro st u now s st' h
  obtain ⟨-, hs, hst⟩ := assignSession_ok_inv st u now s st' h
  constructor
  · unfold storedFor
    rw [h]
    simp only [hst]
    exact getKey_putKey_self st.sessions u (s, 1800)
  · rw [hs]

/-- C8 witness: the amended statement instantiated at the one-free-slot
state. -/
theorem c8_witness :
    storedFor (assignSession lastSlotState "u1" 0) "u1" =
      some ({ userId := "u1", serverId := "s1",
              subdomain := "session-0.ps.domain.com", startTime := 0,
              maxDuration := 30 * 60 * 1000 }, 1800) ∧
    Session.maxDuration
        { userId := "u1", serverId := "s1",
          subdomain := "session-0.ps.domain.com", startTime := 0,
          maxDuration := 30 * 60 * 1000 } = 1800 * 1000 :=
  c8_theorem lastSlotState "u1" 0
    { userId := "u1", serverId := "s1",
      subdomain := "session-0.ps.domain.com", startTime := 0,
      maxDuration := 30 * 60 * 1000 }
    { servers := ["s1"], loads := [("s1", 3)],
      sessions := [("u1",
        ({ userId := "u1", serverId := "s1",
           subdomain := "session-0.ps.domain.com", startTime := 0,
           maxDuration := 30 * 60 * 1000 }, 1800))] }
    (by decide)

/-- C9: a call to `assignSession` — successful or not — leaves the server set
`cirrus:servers` and every load counter `cirrus:(serverId):load` exactly as
they were: placement only reads loads and never increments them. -/
theorem c9_theorem : ∀ (st : RedisState) (u : String) (now : Nat),
    (assignSession st u now).2.servers = st.servers ∧
    (assignSession st u now).2.loads = st.loads := by
  intro st u now
  exact assignSession_preserves st u now

/-- C9 witness: the statement instantiated at a successful placement and at a
failing one. -/
theorem c9_witness :
    (assignSession busyUserState "u1" 100).2.loads = busyUserState.loads ∧
    (assignSession saturatedState "u9" 3).2.servers =
      saturatedState.servers :=
  ⟨(c9_theorem busyUserState "u1" 100).2, (c9_theorem saturatedState "u9" 3).1⟩

/-- C10: the store keys session records by user, so after a successful
`assignSession` the user's key holds exactly the new record with TTL 1800 —
exactly one binding for that user exists, any prior record was silently
overwritten, every other user's record is untouched, and no load counter was
released or changed. -/
theorem c10_theorem :
    ∀ (st : RedisState) (u : String) (now : Nat) (s : Session)
      (st' : RedisState),
    assignSession st u now = (Except.ok s, st') →
    getKey st'.sessions u = some (s, 1800) ∧
      countKey st'.sessions u = 1 ∧
      (∀ v, v ≠ u → getKey st'.sessions v = getKey st.sessions v) ∧
      st'.loads = st.loads ∧ st'.servers = st.servers := by
  intro st u now s st' h
  obtain ⟨-, -, hst⟩ := assignSession_ok_inv st u now s st' h
  subst hst
  exact ⟨getKey_putKey_self st.sessions u (s, 1800),
    countKey_putKey_self st.sessions u (s, 1800),
    fun v hv => getKey_putKey_ne st.sessions u v (s, 1800) hv,
    rfl, rfl⟩

/-- C10 witness: the statement instantiated at a state where `u1` already has
a record, which the new placement overwrites. -/
theorem c10_witness :
    getKey
        (putKey busyUserState.sessions "u1"
          ({ userId := "u1", serverId := "s1",
             subdomain := "session-100.ps.domain.com", startTime := 100,
             maxDuration := 30 * 60 * 1000 }, 1800)) "u1" =
      some ({ userId := "u1", serverId := "s1",
              subdomain := "session-100.ps.domain.com", startTime := 100,
              maxDuration := 30 * 60 * 1000 }, 1800) ∧
    countKey
        (putKey busyUserState.sessions "u1"
          ({ userId := "u1", serverId := "s1",
             subdomain := "session-100.ps.domain.com", startTime := 100,
             maxDuration := 30 * 60 * 1000 }, 1800)) "u1" = 1 := by
  have h := c10_theorem busyUserState "u1" 100
    { userId := "u1", serverId := "s1",
      subdomain := "session-100.ps.domain.com", startTime := 100,
      maxDuration := 30 * 60 * 1000 }
    { servers := ["s1"], loads := [("s1", 0)],
      sessions := putKey busyUserState.sessions "u1"
        ({ userId := "u1", serverId := "s1",
           subdomain := "session-100.ps.domain.com", startTime := 100,
           maxDuration := 30 * 60 * 1000 }, 1800) }
    (by decide)
  exact ⟨h.1, h.2.1⟩

end Matchmaker

